import Mathlib

/-!
Shallow embedding of the ScholarMate pipeline (src/services/geminiService.ts
and the validation view of src/App.tsx), with theorems settling the frozen
claims about it.

Conventions of the embedding:
* JS strings are Lean `String`s (lists of characters); the JS regular
  expressions used by `cleanCode`/`cleanJson` are modelled by explicit
  character-list functions mirroring the exact patterns.
* The effectful remote call `ai.models.generateContent` is modelled by an
  oracle: for the retry wrapper, `call : Nat → Except ApiError α` gives the
  outcome of each attempt; for the pipeline, `texts : Nat → Option String`
  gives the `.text` payload of the i-th (0-based) successful stage call,
  `none` modelling an absent/undefined payload.
* JS numbers used for the backoff delays are modelled by `ℚ`; every value
  reached by `10000 * 1.5 ^ k` for `k ≤ 9` is exactly representable in
  binary floating point, so `ℚ` models the JS arithmetic exactly here.
-/

/-! ### JS string helpers -/

/-- Whitespace class used by JS `\s` and `String.prototype.trim` (ASCII
fragment: space, tab, LF, VT, FF, CR; the non-ASCII members never occur in
the strings this development handles). -/
def isJsSpace (c : Char) : Bool :=
  c == ' ' || c == '\t' || c == '\n' || c == '\x0b' || c == '\x0c' || c == '\r'

/-- JS `String.prototype.trim`: drop leading and trailing whitespace. -/
def jsTrim (s : List Char) : List Char :=
  ((s.dropWhile isJsSpace).reverse.dropWhile isJsSpace).reverse

/-- Checks that `p` is a prefix of `s` (character-exact). -/
def isPrefixCh : List Char → List Char → Bool
  | [], _ => true
  | _ :: _, [] => false
  | p :: ps, c :: cs => p == c && isPrefixCh ps cs

/-- Checks that `sub` occurs as a contiguous substring of `s`, scanning
left to right. -/
def containsCh (sub : List Char) : List Char → Bool
  | [] => isPrefixCh sub []
  | c :: cs => isPrefixCh sub (c :: cs) || containsCh sub cs

/-- JS `String.prototype.includes` (substring containment). -/
def jsIncludes (s sub : String) : Bool :=
  containsCh sub.data s.data

/-- Case-insensitive prefix match, returning the remainder of `s` after the
matched prefix; models a leading regex alternative under the `/i` flag. -/
def matchPrefixCI : List Char → List Char → Option (List Char)
  | [], s => some s
  | _ :: _, [] => none
  | p :: ps, c :: cs => if p.toLower == c.toLower then matchPrefixCI ps cs else none

/-- Models `.replace(/^<tag>\s*/ , '')` (and, with the `/i` sources, the
case-insensitive variant): if `tag` matches at the start, remove it together
with the following whitespace run, else leave the string unchanged. The
only tags used contain no letters or only lower-case letters, so the
case-insensitive matcher also models the case-sensitive `/^```\s*/`. -/
def stripLeadFence (tag : List Char) (s : List Char) : List Char :=
  match matchPrefixCI tag s with
  | some rest => rest.dropWhile isJsSpace
  | none => s

/-- The three-backtick generic fence. -/
def genericFence : String := "\x60\x60\x60"

/-- Models `.replace(/```\s*$/ , '')`: remove from the leftmost occurrence
of a fence that is followed only by whitespace up to the end of the string;
if no such occurrence exists, leave the string unchanged. -/
def stripTrailFence : List Char → List Char
  | [] => []
  | c :: cs =>
    match matchPrefixCI genericFence.data (c :: cs) with
    | some rest => if rest.all isJsSpace then [] else c :: stripTrailFence cs
    | none => c :: stripTrailFence cs

/-- The fence tag of `cleanCode`'s first replace, `/^```python\s*/i`. -/
def pythonFenceTag : String := "\x60\x60\x60python"

/-- The fence tag of `cleanJson`'s first replace, `/^```json\s*/i`. -/
def jsonFenceTag : String := "\x60\x60\x60json"

/-- `cleanCode` from src/services/geminiService.ts:
`text.replace(/^```python\s*/i, '').replace(/^```\s*/, '').replace(/```\s*$/, '').trim()`. -/
def cleanCode (text : String) : String :=
  ⟨jsTrim (stripTrailFence (stripLeadFence genericFence.data
      (stripLeadFence pythonFenceTag.data text.data)))⟩

/-- `cleanJson` from src/services/geminiService.ts:
`text.replace(/^```json\s*/i, '').replace(/^```\s*/, '').replace(/```\s*$/, '').trim()`. -/
def cleanJson (text : String) : String :=
  ⟨jsTrim (stripTrailFence (stripLeadFence genericFence.data
      (stripLeadFence jsonFenceTag.data text.data)))⟩

/-! ### Retry wrapper (`generateWithRetry`, src/services/geminiService.ts lines 23-44) -/

/-- The `429` substring the error classifier searches for. -/
def s429 : String := "429"

/-- The provider marker the error classifier searches for. -/
def sResourceExhausted : String := "RESOURCE_EXHAUSTED"

/-- The shape of a JS error thrown by the remote call, restricted to the
fields `generateWithRetry` inspects (`status`, `code`, `message`); `none`
models an absent/undefined field. -/
structure ApiError where
  status : Option Int
  code : Option Int
  message : Option String
deriving DecidableEq

/-- The rate-limit classification inside `generateWithRetry`:
`error.status === 429 || error.code === 429 ||
 (error.message && error.message.includes('429')) ||
 (error.message && error.message.includes('RESOURCE_EXHAUSTED'))`. -/
def isRateLimit (e : ApiError) : Bool :=
  (e.status == some 429) || (e.code == some 429) ||
    (match e.message with
      | some m => jsIncludes m s429
      | none => false) ||
    (match e.message with
      | some m => jsIncludes m sResourceExhausted
      | none => false)

/-- The failure modes of the wrapper: a propagated JS error from an attempt,
or the wrapper's own terminal `Error("Failed to generate content after
retries. The API quota may be exhausted.")`. -/
inductive GenError where
  | api (e : ApiError)
  | quotaExhausted
deriving DecidableEq

/-- The `for (let i = 0; i < retries; i++)` loop of `generateWithRetry`.
`remaining` counts the loop iterations still allowed (`retries - i`), so the
recursion is structural; `i` and `d` are the loop counter and
`currentDelay`. Besides the JS outcome (returned value, thrown error, or
the terminal quota-exhausted error reached when the loop runs out) the model
returns the number of attempts made and the list of backoff delays awaited,
in order. -/
def retryLoop {α : Type} (call : Nat → Except ApiError α) (retries : Nat) :
    Nat → Nat → ℚ → Except GenError α × Nat × List ℚ
  | 0, _, _ => (Except.error GenError.quotaExhausted, 0, [])
  | remaining + 1, i, d =>
    match call i with
    | Except.ok v => (Except.ok v, 1, [])
    | Except.error e =>
      if isRateLimit e = true ∧ i < retries - 1 then
        let r := retryLoop call retries remaining (i + 1) (d * (3 / 2))
        (r.1, r.2.1 + 1, d :: r.2.2)
      else
        (Except.error (GenError.api e), 1, [])

/-- `generateWithRetry(params, retries, initialDelay)`: run the attempt loop
from `i = 0` with `currentDelay = initialDelay`. The call sites use the
default arguments `retries = 10`, `initialDelay = 10000`. -/
def generateWithRetry {α : Type} (call : Nat → Except ApiError α)
    (retries : Nat) (initialDelay : ℚ) : Except GenError α × Nat × List ℚ :=
  retryLoop call retries retries 0 initialDelay

/-- The sequence of `currentDelay` values awaited by `N` consecutive
rate-limit retries starting from delay `d`: each retry awaits the current
delay and then multiplies it by 1.5. -/
def geomDelays : ℚ → Nat → List ℚ
  | _, 0 => []
  | d, N + 1 => d :: geomDelays (d * (3 / 2)) N

/-! ### Fixed prompt texts of the seven pipeline stages
(transcribed verbatim from the template literals of
src/services/geminiService.ts; the `…PromptA/B/…` families are the fixed
segments around the `${…}` interpolation holes). -/

-- fixed literal, no holes

def systemInstructionText : String :=
  "\n    You are ScholarMate, a senior research scientist, ML engineer, and academic reviewer combined.\n    Your job is to transform research papers into accurate, grounded, reproducible research artifacts.\n    \n    STRICT RULES:\n    - Use ONLY the provided paper context.\n    - Never hallucinate facts, numbers, or results.\n    - If information is missing, explicitly say: \"Not specified in the paper.\"\n    - Be precise, technical, and concise.\n    - Prefer correctness over verbosity.\n    - Assume the user is a technical student or researcher.\n    - All outputs must be structured, evaluable, and demo-ready.\n  "

-- fixed literal, no holes

def summaryPromptText : String :=
  "\n        Analyze this paper and provide a comprehensive, structured technical summary.\n        \n        Output Structure (Markdown):\n        \n        ## 1. Executive Summary\n        *   **Context**: The broader field and specific problem addressed.\n        *   **Core Contribution**: The main innovation or thesis.\n        *   **Impact**: Why this work is significant.\n\n        ## 2. Methodology & Architecture\n        *   **Theoretical Basis**: Mathematical or theoretical foundation.\n        *   **System Design**: Key components/algorithms.\n        *   **Data Strategy**: Collection/generation methods.\n\n        ## 3. Key Findings\n        *   **Metrics**: Specific numerical results (SOTA comparison, accuracy).\n        *   **Evidence**: Description of key graphs/visuals.\n\n        ## 4. Conclusions\n        *   Authors\x27 final stance and future work.\n        "

-- fixed literal, no holes

def critiquePromptText : String :=
  "\n        You are acting as an academic reviewer.\n\n        TASK:\n        Identify EXACTLY THREE concrete weaknesses or limitations of the paper.\n\n        REQUIREMENTS:\n        - Each point must be specific and technical.\n        - Base each critique ONLY on what is stated or clearly missing in the paper.\n        - Avoid generic criticism.\n        - Focus on:\n          - experimental design\n          - dataset limitations\n          - evaluation methodology\n          - scalability or reproducibility\n\n        OUTPUT FORMAT (Markdown):\n        1. **Short Title**: Explanation (2–3 concise technical sentences).\n        2. **Short Title**: Explanation (2–3 concise technical sentences).\n        3. **Short Title**: Explanation (2–3 concise technical sentences).\n        "

-- fixed literal, no holes

def experimentPromptText : String :=
  "\n    Design ONE reproducible mini-experiment inspired by the paper.\n\n    GOAL:\n    The experiment must help a student understand or validate\n    a core idea from the paper.\n\n    STRICT CONSTRAINTS:\n    - Must run in under 5 minutes on a laptop.\n    - Use only standard Python libraries (sklearn, numpy, pandas, matplotlib).\n    - Must be educational and realistic.\n\n    REQUIREMENTS:\n    - If no dataset is provided, use a small synthetic dataset.\n    - Clearly define:\n      - Objective\n      - Data\n      - Method\n      - Evaluation metric\n    - Do NOT overcomplicate.\n\n    OUTPUT FORMAT (Use Markdown):\n    **Experiment Objective**: [text]\n    \n    **Data Description**: [text]\n    \n    **Method**: [text]\n    \n    **Evaluation Metric**: [text]\n    \n    **Expected Outcome**: [text]\n  "

-- holes interpolated in source: ['experimentPlan']

def codePromptA : String :=
  "\n    Generate runnable Python code for the experiment described below.\n\n    Experiment Plan:\n    "

def codePromptB : String :=
  "\n\n    STRICT RULES:\n    - Use ONLY these libraries: numpy, pandas, scikit-learn, matplotlib\n    - Do NOT use deep learning frameworks.\n    - Do NOT use external files or APIs.\n    - Generate any required data inside the code (e.g. using numpy.random or sklearn.datasets).\n    - The code MUST run top-to-bottom with no edits.\n\n    TASK:\n    Implement the experiment exactly as described in the plan.\n    Ensure strict reproducibility and clear output of results.\n\n    OUTPUT FORMAT:\n    - Output ONLY valid Python code.\n    - Add comments to explain necessary lines and how they relate to the paper\x27s concepts.\n  "

-- holes interpolated in source: ['summary', 'experimentPlan']

def slidesPromptA : String :=
  "\n    Create content for a 5-slide technical presentation summarizing the paper and experiment.\n    \n    Context:\n    "

def slidesPromptB : String :=
  "\n    "

def slidesPromptC : String :=
  "\n\n    TASK:\n    Create slide text summarizing the paper and experiment.\n\n    SLIDE STRUCTURE:\n    1. Problem & Motivation\n    2. Core Idea\n    3. Method Overview\n    4. Reproducible Experiment\n    5. Key Takeaways & Next Steps\n\n    REQUIREMENTS:\n    - Each slide must have:\n      - A clear title\n      - 3–5 concise bullet points\n    - Use technical but simple language.\n    - Avoid marketing language.\n    \n    Return JSON array.\n  "

-- holes interpolated in source: ['experimentPlan']

def interpretationPromptA : String :=
  "\n    Interpret the EXPECTED results of the mini-experiment described below.\n\n    Experiment Plan:\n    "

def interpretationPromptB : String :=
  "\n\n    TASK:\n    Explain what the results demonstrate in relation to the paper.\n\n    REQUIREMENTS:\n    - Max 150 words.\n    - Be honest about limitations (since it uses synthetic data).\n    - Do not exaggerate conclusions.\n    - Focus on educational value.\n  "

-- holes interpolated in source: ['summary', 'critique', 'experimentPlan']

def validationPromptA : String :=
  "\n    Validate the following generated research artifacts against the original paper.\n\n    Artifacts to Check:\n    1. Summary: "

def validationPromptB : String :=
  "\n    2. Critique: "

def validationPromptC : String :=
  "\n    3. Experiment Plan: "

def validationPromptD : String :=
  "\n\n    TASK:\n    Check for:\n    - Hallucinated claims\n    - Inconsistencies between summary, critique, and experiment\n    - Unsupported assumptions\n\n    If issues exist, list them clearly.\n    If none exist, output:\n    \"Outputs are internally consistent and grounded.\"\n  "

/-! ### JSON parsing for the slides stage

The source runs `JSON.parse(cleanJson(slidesResp.text || "[]"))` and casts
the result to `SlideData[]`. The parser below models `JSON.parse` on the
JSON fragment the slides stage can produce under its response schema
(arrays, objects, strings, integers, booleans, null; no fractional or
exponent number forms and no `\u` string escapes), rejecting everything
else; the decode step models the (unchecked) TS cast by requiring the
parsed value to be an array of `{title, bullets}` records, which is exactly
the shape the attached response schema enforces. -/

/-- A parsed JSON value (fragment used by this embedding). -/
inductive Json where
  | null
  | bool (b : Bool)
  | num (n : Int)
  | str (s : String)
  | arr (elems : List Json)
  | obj (members : List (String × Json))

/-- JSON whitespace (space, tab, LF, CR), skipped between tokens. -/
def skipWs (s : List Char) : List Char :=
  s.dropWhile (fun c => c == ' ' || c == '\t' || c == '\n' || c == '\r')

/-- Parses the body of a JSON string literal after the opening quote,
returning the decoded characters and the input after the closing quote.
Handles the single-character escapes; raw control characters and `\u`
escapes are rejected. -/
def parseStrBody : List Char → Option (List Char × List Char)
  | [] => none
  | '"' :: rest => some ([], rest)
  | '\\' :: e :: rest =>
    match (match e with
      | '"' => some '"'
      | '\\' => some '\\'
      | '/' => some '/'
      | 'b' => some '\x08'
      | 'f' => some '\x0c'
      | 'n' => some '\n'
      | 'r' => some '\r'
      | 't' => some '\t'
      | _ => none : Option Char) with
    | some c =>
      (match parseStrBody rest with
        | some (cs, r) => some (c :: cs, r)
        | none => none)
    | none => none
  | c :: rest =>
    if c.toNat < 32 then none
    else
      match parseStrBody rest with
      | some (cs, r) => some (c :: cs, r)
      | none => none

/-- Value of a non-empty digit run. -/
def digitsToNat (ds : List Char) : Nat :=
  ds.foldl (fun a c => a * 10 + (c.toNat - 48)) 0

/-- The three mutually recursive productions of the JSON grammar, fused
into one function: a value, the element list after `[` (non-empty case),
and the member list after the opening brace (non-empty case). -/
inductive PMode where
  | value
  | arrElems
  | objMembers

/-- Recursive-descent JSON parser. `fuel` bounds the recursion depth (every
recursive call consumes one unit; `jsonParse` supplies more fuel than any
parse of its input can use), making the recursion structural and hence
kernel-evaluable. -/
def parseJ : Nat → PMode → List Char → Option (Json × List Char)
  | 0, _, _ => none
  | fuel + 1, PMode.value, s =>
    match skipWs s with
    | '"' :: rest => (parseStrBody rest).map fun p => (Json.str ⟨p.1⟩, p.2)
    | '[' :: rest =>
      (match skipWs rest with
        | ']' :: r2 => some (Json.arr [], r2)
        | _ => parseJ fuel PMode.arrElems rest)
    | '\x7b' :: rest =>
      (match skipWs rest with
        | '\x7d' :: r2 => some (Json.obj [], r2)
        | _ => parseJ fuel PMode.objMembers rest)
    | 't' :: 'r' :: 'u' :: 'e' :: rest => some (Json.bool true, rest)
    | 'f' :: 'a' :: 'l' :: 's' :: 'e' :: rest => some (Json.bool false, rest)
    | 'n' :: 'u' :: 'l' :: 'l' :: rest => some (Json.null, rest)
    | '-' :: rest =>
      let ds := rest.takeWhile Char.isDigit
      if ds.isEmpty then none
      else some (Json.num (-(digitsToNat ds : Int)), rest.dropWhile Char.isDigit)
    | c :: rest =>
      if c.isDigit then
        let ds := (c :: rest).takeWhile Char.isDigit
        some (Json.num (digitsToNat ds : Int), (c :: rest).dropWhile Char.isDigit)
      else none
    | [] => none
  | fuel + 1, PMode.arrElems, s =>
    match parseJ fuel PMode.value s with
    | some (v, r) =>
      (match skipWs r with
        | ',' :: r2 =>
          (match parseJ fuel PMode.arrElems r2 with
            | some (Json.arr vs, r3) => some (Json.arr (v :: vs), r3)
            | _ => none)
        | ']' :: r2 => some (Json.arr [v], r2)
        | _ => none)
    | none => none
  | fuel + 1, PMode.objMembers, s =>
    match skipWs s with
    | '"' :: rest =>
      (match parseStrBody rest with
        | some (k, r) =>
          (match skipWs r with
            | ':' :: r2 =>
              (match parseJ fuel PMode.value r2 with
                | some (v, r3) =>
                  (match skipWs r3 with
                    | ',' :: r4 =>
                      (match parseJ fuel PMode.objMembers r4 with
                        | some (Json.obj ms, r5) => some (Json.obj ((⟨k⟩, v) :: ms), r5)
                        | _ => none)
                    | '\x7d' :: r4 => some (Json.obj [(⟨k⟩, v)], r4)
                    | _ => none)
                | none => none)
            | _ => none)
        | none => none)
    | _ => none

/-- Models `JSON.parse`: parse one value and require only whitespace after
it. The fuel `2 * length + 4` exceeds the recursion depth of any parse
(each parser call either consumes input or immediately delegates to one
that does). -/
def jsonParse (s : String) : Option Json :=
  match parseJ (2 * s.data.length + 4) PMode.value s.data with
  | some (v, rest) => if (skipWs rest).isEmpty then some v else none
  | none => none

/-- A slide record from src/types.ts. -/
structure SlideData where
  title : String
  bullets : List String
deriving DecidableEq

/-- Extracts a JSON string. -/
def asString : Json → Option String
  | Json.str s => some s
  | _ => none

/-- Extracts a JSON array of strings. -/
def asStringList : Json → Option (List String)
  | Json.arr xs => xs.mapM asString
  | _ => none

/-- Looks up an object key. `JSON.parse` keeps the last of duplicate keys,
hence the reversed search. -/
def lookupKey (kvs : List (String × Json)) (k : String) : Option Json :=
  (kvs.reverse.find? (fun p => p.1 == k)).map (fun p => p.2)

/-- Object key names of a slide record. -/
def keyTitle : String := "title"

def keyBullets : String := "bullets"

/-- Reads one slide record (`title` string, `bullets` string array). -/
def decodeSlide (j : Json) : Option SlideData :=
  match j with
  | Json.obj kvs =>
    ((lookupKey kvs keyTitle).bind asString).bind fun t =>
      ((lookupKey kvs keyBullets).bind asStringList).map fun bs => ⟨t, bs⟩
  | _ => none

/-- The slides-stage parse: `JSON.parse` followed by reading the value as a
list of slide records. -/
def parseSlideData (s : String) : Option (List SlideData) :=
  match jsonParse s with
  | some (Json.arr xs) => xs.mapM decodeSlide
  | _ => none

/-! ### Pipeline orchestrator (`generateAnalysis`, src/services/geminiService.ts lines 46-349) -/

/-- `MODEL_NAME` from src/services/geminiService.ts. -/
def modelName : String := "gemini-3-pro-preview"

/-- A content part of a request: the uploaded document (`filePart`, i.e.
`{ inlineData: { mimeType, data: fileBase64 } }`) or a text part. -/
inductive ReqPart where
  | file
  | text (s : String)
deriving DecidableEq

/-- The `config` object of a request, restricted to the fields the pipeline
sets; `responseSchema` records whether the slides schema object is
attached. -/
structure GenConfig where
  systemInstruction : Option String
  responseMimeType : Option String
  responseSchema : Bool
deriving DecidableEq

/-- One request passed to `generateWithRetry`; `config = none` models a
request object with no `config` property at all. -/
structure GenRequest where
  model : String
  config : Option GenConfig
  parts : List ReqPart
deriving DecidableEq

/-- The result bundle (interface `AnalysisResult` from src/types.ts). -/
structure AnalysisResult where
  summary : String
  critique : String
  experimentPlan : String
  pythonCode : String
  experimentInterpretation : String
  validationReport : String
  slides : List SlideData
deriving DecidableEq

/-- One full run of the pipeline on the success path (each wrapped call
returns a response): the requests issued in order, the progress strings
emitted, the unconditional inter-stage delays awaited (ms), the
`console.error` messages logged, and the returned result bundle. -/
structure PipelineRun where
  requests : List GenRequest
  progress : List String
  stageDelays : List Nat
  loggedErrors : List String
  result : AnalysisResult
deriving DecidableEq

/-- JS `resp.text || fallback`: an absent or empty text payload is falsy
and selects the fallback. -/
def textOr : Option String → String → String
  | none, fallback => fallback
  | some t, fallback => if t == "" then fallback else t

/-- Whether an oracle payload is falsy (absent or the empty string). -/
def isEmptyText : Option String → Bool
  | none => true
  | some t => t == ""

/-- Stage placeholders and other fixed strings of the pipeline. -/
def phSummary : String := "Failed to generate summary."

def phCritique : String := "Failed to generate critique."

def phExperimentPlan : String := "Failed to generate experiment plan."

def phCode : String := "# Failed to generate code."

def phInterpretation : String := "Failed to generate interpretation."

def phValidation : String := "Validation check failed."

def jsonFallback : String := "[]"

def slidesParseLogMsg : String := "Failed to parse slides JSON"

/-- The placeholder slide substituted when the slides JSON fails to parse:
`[{ title: "Error", bullets: ["Failed to generate slides data."] }]`. -/
def errorSlide : SlideData := ⟨"Error", ["Failed to generate slides data."]⟩

/-- The stage-1/2/3 shared config `{ systemInstruction }`. -/
def sysConfig : GenConfig := ⟨some systemInstructionText, none, false⟩

/-- The stage-5 response MIME type. -/
def mimeJson : String := "application/json"

/-- The stage-5 config `{ responseMimeType: "application/json", responseSchema }`. -/
def slidesConfig : GenConfig := ⟨none, some mimeJson, true⟩

/-- The stage-4 prompt with the experiment plan interpolated. -/
def codePromptOf (experimentPlan : String) : String :=
  codePromptA ++ experimentPlan ++ codePromptB

/-- The stage-5 prompt with summary and experiment plan interpolated. -/
def slidesPromptOf (summary experimentPlan : String) : String :=
  slidesPromptA ++ summary ++ slidesPromptB ++ experimentPlan ++ slidesPromptC

/-- The stage-6 prompt with the experiment plan interpolated. -/
def interpretationPromptOf (experimentPlan : String) : String :=
  interpretationPromptA ++ experimentPlan ++ interpretationPromptB

/-- The stage-7 prompt with summary, critique and experiment plan
interpolated. -/
def validationPromptOf (summary critique experimentPlan : String) : String :=
  validationPromptA ++ summary ++ validationPromptB ++ critique ++
    validationPromptC ++ experimentPlan ++ validationPromptD

/-- `generateAnalysis(fileBase64, mimeType, onProgress)` on the success
path. `texts i` is the `.text` payload returned by the i-th (0-based)
wrapped call; the document and MIME type are opaque to the control flow and
are represented by `ReqPart.file`. Stage order, part lists, configs, progress
strings, fallbacks, the slides parse with its placeholder and log, and the
six 12000 ms inter-stage delays mirror the source statement by statement. -/
def generateAnalysis (texts : Nat → Option String) : PipelineRun :=
  let summary := textOr (texts 0) phSummary
  let critique := textOr (texts 1) phCritique
  let experimentPlan := textOr (texts 2) phExperimentPlan
  let pythonCode := cleanCode (textOr (texts 3) phCode)
  let slidesParsed := parseSlideData (cleanJson (textOr (texts 4) jsonFallback))
  let slides :=
    match slidesParsed with
    | some l => l
    | none => [errorSlide]
  let experimentInterpretation := textOr (texts 5) phInterpretation
  let validationReport := textOr (texts 6) phValidation
  { requests := [
      { model := modelName, config := some sysConfig,
        parts := [ReqPart.file, ReqPart.text summaryPromptText] },
      { model := modelName, config := some sysConfig,
        parts := [ReqPart.file, ReqPart.text critiquePromptText] },
      { model := modelName, config := some sysConfig,
        parts := [ReqPart.file, ReqPart.text experimentPromptText] },
      { model := modelName, config := none,
        parts := [ReqPart.text (codePromptOf experimentPlan)] },
      { model := modelName, config := some slidesConfig,
        parts := [ReqPart.file, ReqPart.text (slidesPromptOf summary experimentPlan)] },
      { model := modelName, config := none,
        parts := [ReqPart.text (interpretationPromptOf experimentPlan)] },
      { model := modelName, config := none,
        parts := [ReqPart.file, ReqPart.text (validationPromptOf summary critique experimentPlan)] } ],
    progress := [
      "Step 1/7: Generating Deep Summary...",
      "Step 2/7: Generating Critical Review...",
      "Step 3/7: Designing Experiment...",
      "Step 4/7: Generating Python Code...",
      "Step 5/7: Generating Presentation Slides...",
      "Step 6/7: Generating Interpretation...",
      "Step 7/7: Validating Results..." ],
    stageDelays := [12000, 12000, 12000, 12000, 12000, 12000],
    loggedErrors :=
      match slidesParsed with
      | some _ => []
      | none => [slidesParseLogMsg],
    result := {
      summary := summary,
      critique := critique,
      experimentPlan := experimentPlan,
      pythonCode := pythonCode,
      experimentInterpretation := experimentInterpretation,
      validationReport := validationReport,
      slides := slides } }

/-- The i-th request of a run (defaulting to a vacuous request out of
range). -/
def nthRequest (run : PipelineRun) (i : Nat) : GenRequest :=
  run.requests.getD i ⟨"", none, []⟩

/-- Whether a request attaches the uploaded document. -/
def hasFilePart (q : GenRequest) : Bool :=
  q.parts.any fun p =>
    match p with
    | ReqPart.file => true
    | ReqPart.text _ => false

/-- The text field of the result bundle produced by the stage with 0-based
call index `i` (4 is the slides stage, which produces a list, not text). -/
def stageField (r : AnalysisResult) : Nat → String
  | 0 => r.summary
  | 1 => r.critique
  | 2 => r.experimentPlan
  | 3 => r.pythonCode
  | 5 => r.experimentInterpretation
  | 6 => r.validationReport
  | _ => ""

/-- The fallback string the stage with call index `i` substitutes for a
falsy text payload. -/
def stagePlaceholder : Nat → String
  | 0 => phSummary
  | 1 => phCritique
  | 2 => phExperimentPlan
  | 3 => phCode
  | 5 => phInterpretation
  | 6 => phValidation
  | _ => ""

/-! ### Validation view (src/App.tsx lines 347-359) -/

/-- The substring the validation view actually pattern-matches on:
`result.validationReport.includes("consistent and grounded")`. -/
def sentinelSubstr : String := "consistent and grounded"

/-- The full sentinel sentence the stage-7 prompt designates for the
"no issues" case. -/
def sentinelText : String := "Outputs are internally consistent and grounded."

/-- The validation view's classification: `true` renders the green
"Validation Passed" card, `false` the red "Issues Detected" card. -/
def validationNoIssues (report : String) : Bool :=
  jsIncludes report sentinelSubstr

/-! ### Concrete inputs used by witnesses and counterexamples -/

/-- A pure rate-limit error (`status: 429`). -/
def rlError : ApiError := ⟨some 429, none, none⟩

/-- A non-rate-limit error (`status: 500`, message without either marker). -/
def serverError : ApiError := ⟨some 500, none, some ("Internal Server Error")⟩

/-- A call that fails with a rate-limit error on every attempt. -/
def alwaysRateLimited : Nat → Except ApiError String :=
  fun _ => Except.error rlError

/-- A successful response value. -/
def okResult : String := "generated"

/-- A call failing twice with a rate-limit error, then succeeding. -/
def twoFailCall : Nat → Except ApiError String :=
  fun n => if n < 2 then Except.error rlError else Except.ok okResult

/-- A call that fails with a non-rate-limit error on the first attempt. -/
def failOnceCall : Nat → Except ApiError String :=
  fun _ => Except.error serverError

/-- A generic non-empty stage response. -/
def okText : String := "stage output"

/-- Oracle: every stage call returns a non-empty text. -/
def constOracle : Nat → Option String := fun _ => some okText

/-- Oracle: every stage call returns an absent text payload. -/
def emptyAllOracle : Nat → Option String := fun _ => none

/-- Oracle: the slides stage (call 4) returns an empty text, every other
stage a non-empty one. -/
def emptySlidesOracle : Nat → Option String :=
  fun n => if n = 4 then some ("") else some okText

/-- An unparsable slides payload. -/
def badSlidesText : String := "not json"

/-- Oracle: the slides stage (call 4) returns malformed JSON, every other
stage a non-empty text. -/
def malformedSlidesOracle : Nat → Option String :=
  fun n => if n = 4 then some badSlidesText else some okText

/-- The concrete input of the code-extraction test. -/
def pyFenceInput : String := "\x60\x60\x60python\nprint(1)\n\x60\x60\x60"

/-- The stem every `"Failed to generate X"` placeholder starts with: a
string equals `"Failed to generate " ++ X` for some `X` exactly when this
stem is a prefix of it (`isPrefixCh_iff`). -/
def failedGenStem : String := "Failed to generate "

/-- A validation report other than the sentinel that still contains the
matched substring. -/
def c4Other : String := "The outputs are NOT internally consistent and grounded."

/-- Context pieces for the C4 witness report. -/
def c4wPre : String := "Check done: "

def c4wPost : String := " in all sections."

/-! ### General behaviour lemmas for the retry loop -/

theorem mapPointwise {β γ : Type} (f g : β → γ) (h : ∀ x, f x = g x) :
    ∀ l : List β, l.map f = l.map g := by
  intro l
  induction l with
  | nil => rfl
  | cons a t ih => simp [h a, ih]

theorem geomDelays_eq (N : Nat) :
    ∀ d : ℚ, geomDelays d N = (List.range N).map (fun k => d * (3 / 2) ^ k) := by
  induction N with
  | zero => intro d; rfl
  | succ N ih =>
    intro d
    rw [List.range_succ_eq_map, List.map_cons, List.map_map]
    show d :: geomDelays (d * (3 / 2)) N = _
    rw [ih (d * (3 / 2))]
    rw [mapPointwise ((fun k => d * (3 / 2) ^ k) ∘ Nat.succ) (fun k => d * (3 / 2) * (3 / 2) ^ k)
      (fun k => by simp [Function.comp, pow_succ]; ring)]
    simp

/-- If attempts `i, …, i+N-1` all fail with rate-limit-classified errors and
attempt `i+N` succeeds with `v` (all within the loop bound), the loop
returns `v` after `N+1` attempts, awaiting the geometric delay sequence. -/
theorem retryLoop_ok {α : Type} (call : Nat → Except ApiError α) (retries : Nat) (v : α) :
    ∀ (N i remaining : Nat) (d : ℚ),
      i + remaining = retries →
      i + N < retries →
      (∀ j, j < N → ∃ e, call (i + j) = Except.error e ∧ isRateLimit e = true) →
      call (i + N) = Except.ok v →
      retryLoop call retries remaining i d = (Except.ok v, N + 1, geomDelays d N) := by
  intro N
  induction N with
  | zero =>
    intro i remaining d hinv hlt _hfail hok
    obtain ⟨r, rfl⟩ : ∃ r, remaining = r + 1 := ⟨remaining - 1, by omega⟩
    rw [Nat.add_zero] at hok
    simp [retryLoop, hok, geomDelays]
  | succ N ih =>
    intro i remaining d hinv hlt hfail hok
    obtain ⟨r, rfl⟩ : ∃ r, remaining = r + 1 := ⟨remaining - 1, by omega⟩
    obtain ⟨e, he, hrl⟩ := hfail 0 (Nat.succ_pos N)
    rw [Nat.add_zero] at he
    have hguard : isRateLimit e = true ∧ i < retries - 1 := ⟨hrl, by omega⟩
    have hrec := ih (i + 1) r (d * (3 / 2)) (by omega) (by omega)
      (fun j hj => by
        obtain ⟨e', he', hrl'⟩ := hfail (j + 1) (by omega)
        exact ⟨e', by rw [show i + 1 + j = i + (j + 1) by omega]; exact he', hrl'⟩)
      (by rw [show i + 1 + N = i + (N + 1) by omega]; exact hok)
    simp only [retryLoop, he, if_pos hguard, hrec, geomDelays]

/-- If attempts `i, …, i+N-1` all fail with rate-limit-classified errors and
attempt `i+N` fails with `e` while either `e` is not rate-limit-classified
or `i+N` is the last allowed attempt (`retries - 1`), the loop rethrows `e`
after `N+1` attempts, awaiting only the `N` earlier delays. -/
theorem retryLoop_errEnd {α : Type} (call : Nat → Except ApiError α) (retries : Nat)
    (e : ApiError) :
    ∀ (N i remaining : Nat) (d : ℚ),
      i + remaining = retries →
      i + N < retries →
      (∀ j, j < N → ∃ e', call (i + j) = Except.error e' ∧ isRateLimit e' = true) →
      call (i + N) = Except.error e →
      (isRateLimit e = false ∨ i + N = retries - 1) →
      retryLoop call retries remaining i d =
        (Except.error (GenError.api e), N + 1, geomDelays d N) := by
  intro N
  induction N with
  | zero =>
    intro i remaining d hinv hlt _hfail herr hend
    obtain ⟨r, rfl⟩ : ∃ r, remaining = r + 1 := ⟨remaining - 1, by omega⟩
    rw [Nat.add_zero] at herr hend
    have hguard : ¬ (isRateLimit e = true ∧ i < retries - 1) := by
      rcases hend with h | h
      · exact fun hc => by rw [hc.1] at h; exact Bool.noConfusion h
      · omega
    simp [retryLoop, herr, if_neg hguard, geomDelays]
  | succ N ih =>
    intro i remaining d hinv hlt hfail herr hend
    obtain ⟨r, rfl⟩ : ∃ r, remaining = r + 1 := ⟨remaining - 1, by omega⟩
    obtain ⟨e', he', hrl'⟩ := hfail 0 (Nat.succ_pos N)
    rw [Nat.add_zero] at he'
    have hguard : isRateLimit e' = true ∧ i < retries - 1 := ⟨hrl', by omega⟩
    have hrec := ih (i + 1) r (d * (3 / 2)) (by omega) (by omega)
      (fun j hj => by
        obtain ⟨e'', he'', hrl''⟩ := hfail (j + 1) (by omega)
        exact ⟨e'', by rw [show i + 1 + j = i + (j + 1) by omega]; exact he'', hrl''⟩)
      (by rw [show i + 1 + N = i + (N + 1) by omega]; exact herr)
      (by rcases hend with h | h
          · exact Or.inl h
          · exact Or.inr (by omega))
    simp only [retryLoop, he', if_pos hguard, hrec, geomDelays]

/-! ### Substring bridging lemmas -/

theorem isPrefixCh_iff (p : List Char) :
    ∀ s : List Char, isPrefixCh p s = true ↔ ∃ t, s = p ++ t := by
  induction p with
  | nil =>
    intro s
    simp [isPrefixCh]
  | cons a ps ih =>
    intro s
    cases s with
    | nil =>
      simp [isPrefixCh]
    | cons c cs =>
      simp only [isPrefixCh, Bool.and_eq_true, beq_iff_eq, ih cs]
      constructor
      · rintro ⟨rfl, t, rfl⟩
        exact ⟨t, rfl⟩
      · rintro ⟨t, h⟩
        obtain ⟨rfl, rfl⟩ : a = c ∧ cs = ps ++ t := by
          have h2 := h
          rw [List.cons_append] at h2
          exact ⟨(List.cons.injEq _ _ _ _ ▸ congrArg id h2).1.symm,
            (List.cons.injEq _ _ _ _ ▸ congrArg id h2).2⟩
        exact ⟨rfl, t, rfl⟩

theorem containsCh_iff (sub : List Char) :
    ∀ s : List Char, containsCh sub s = true ↔ ∃ u v, s = u ++ sub ++ v := by
  intro s
  induction s with
  | nil =>
    simp only [containsCh, isPrefixCh_iff]
    constructor
    · rintro ⟨t, h⟩
      exact ⟨[], t, by simpa using h⟩
    · rintro ⟨u, v, h⟩
      obtain ⟨rfl, rfl, rfl⟩ : u = [] ∧ sub = [] ∧ v = [] := by
        have := h.symm
        simp only [List.append_eq_nil] at this
        exact ⟨this.1.1, this.1.2, this.2⟩
      exact ⟨[], rfl⟩
  | cons c cs ih =>
    simp only [containsCh, Bool.or_eq_true, isPrefixCh_iff, ih]
    constructor
    · rintro (⟨t, h⟩ | ⟨u, v, h⟩)
      · exact ⟨[], t, by simpa using h⟩
      · exact ⟨c :: u, v, by simp [h]⟩
    · rintro ⟨u, v, h⟩
      cases u with
      | nil =>
        exact Or.inl ⟨v, by simpa using h⟩
      | cons x xs =>
        right
        refine ⟨xs, v, ?_⟩
        have h2 := h
        simp only [List.cons_append, List.append_assoc] at h2 ⊢
        exact (List.cons.injEq _ _ _ _ ▸ congrArg id h2).2

theorem jsIncludes_iff (s sub : String) :
    jsIncludes s sub = true ↔ ∃ a b : String, s = a ++ sub ++ b := by
  rw [jsIncludes, containsCh_iff]
  constructor
  · rintro ⟨u, v, h⟩
    refine ⟨⟨u⟩, ⟨v⟩, String.ext ?_⟩
    rw [String.data_append, String.data_append]
    exact h
  · rintro ⟨a, b, rfl⟩
    exact ⟨a.data, b.data, by rw [String.data_append, String.data_append]⟩

/-! ### Helper equations for the pipeline run -/

theorem run_slides_eq (texts : Nat → Option String) :
    (generateAnalysis texts).result.slides =
      match parseSlideData (cleanJson (textOr (texts 4) jsonFallback)) with
      | some l => l
      | none => [errorSlide] := rfl

theorem run_logged_eq (texts : Nat → Option String) :
    (generateAnalysis texts).loggedErrors =
      match parseSlideData (cleanJson (textOr (texts 4) jsonFallback)) with
      | some _ => []
      | none => [slidesParseLogMsg] := rfl

theorem run_requests_length (texts : Nat → Option String) :
    (generateAnalysis texts).requests.length = 7 := rfl

theorem textOr_empty (o : Option String) (d : String) (h : isEmptyText o = true) :
    textOr o d = d := by
  cases o with
  | none => rfl
  | some t =>
    simp only [isEmptyText] at h
    simp [textOr, h]

/-! ### Claim theorems -/

/-- C1 (code behaviour at the failing input): when every attempt fails with
a rate-limit-classified error, `generateWithRetry` with the configured
defaults (10 attempts, 10000 ms initial delay) makes exactly 10 attempts
and then rethrows the tenth attempt's own rate-limit error — not the
terminal quota-exhausted error: on the last iteration `i < retries - 1`
fails and the `else` branch rethrows, so the
`throw new Error("... quota may be exhausted.")` after the loop is
unreachable. -/
theorem C1_exhausted_rethrows_last_error :
    generateWithRetry alwaysRateLimited 10 10000 =
      (Except.error (GenError.api rlError), 10,
        (List.range 9).map fun k => (10000 : ℚ) * (3 / 2) ^ k) := by
  have h := retryLoop_errEnd alwaysRateLimited 10 rlError 9 0 10 10000 rfl (by omega)
    (fun j _ => ⟨rlError, rfl, by decide⟩) rfl (Or.inr (by omega))
  calc generateWithRetry alwaysRateLimited 10 10000
      = retryLoop alwaysRateLimited 10 10 0 10000 := rfl
    _ = _ := by rw [h, geomDelays_eq]

/-- C2 (counterexample): the stage-3 (experiment-plan) request — index 2 —
does attach the input document, refuting the claim that stage 3's request
does not contain it. -/
theorem C2_counterexample :
    hasFilePart (nthRequest (generateAnalysis constOracle) 2) = true := by decide

/-- C2 (amended): every stage's request context is exactly the
concatenation of the specified prior-stage outputs and that stage's fixed
instruction text, and the document is attached by stages 1, 2, 3, 5 and 7
(not 4 and 6). -/
theorem C2_request_contexts (texts : Nat → Option String) :
    (generateAnalysis texts).requests.map GenRequest.parts =
      [[ReqPart.file, ReqPart.text summaryPromptText],
       [ReqPart.file, ReqPart.text critiquePromptText],
       [ReqPart.file, ReqPart.text experimentPromptText],
       [ReqPart.text (codePromptOf (textOr (texts 2) phExperimentPlan))],
       [ReqPart.file, ReqPart.text (slidesPromptOf (textOr (texts 0) phSummary)
          (textOr (texts 2) phExperimentPlan))],
       [ReqPart.text (interpretationPromptOf (textOr (texts 2) phExperimentPlan))],
       [ReqPart.file, ReqPart.text (validationPromptOf (textOr (texts 0) phSummary)
          (textOr (texts 1) phCritique) (textOr (texts 2) phExperimentPlan))]] ∧
    (generateAnalysis texts).requests.map hasFilePart =
      [true, true, true, false, true, false, true] :=
  ⟨rfl, rfl⟩

/-- C3 (counterexample): a run whose slides-stage response text is empty
falls back to parsing `"[]"`, which succeeds, so the returned bundle's
slides list is empty — refuting the claim that it is never empty. -/
theorem C3_counterexample :
    (generateAnalysis emptySlidesOracle).result.slides = [] := by decide

/-- C3 (amended): the slides list is non-empty (the one-entry placeholder)
whenever the slides text fails to parse, but when the response text is
falsy the `"[]"` fallback parses successfully and the slides list is
empty. -/
theorem C3_slides_emptiness (texts : Nat → Option String) :
    (parseSlideData (cleanJson (textOr (texts 4) jsonFallback)) = none →
      (generateAnalysis texts).result.slides = [errorSlide]) ∧
    (textOr (texts 4) jsonFallback = jsonFallback →
      (generateAnalysis texts).result.slides = []) := by
  constructor
  · intro h
    rw [run_slides_eq, h]
  · intro h
    rw [run_slides_eq, h]
    decide

/-- C3 (witness): at the malformed-slides oracle the placeholder branch
applies; at the empty-slides oracle the bundle's slides list is empty. -/
theorem C3_witness :
    (generateAnalysis malformedSlidesOracle).result.slides = [errorSlide] ∧
    (generateAnalysis emptySlidesOracle).result.slides = [] :=
  ⟨(C3_slides_emptiness malformedSlidesOracle).1 (by decide),
   (C3_slides_emptiness emptySlidesOracle).2 (by decide)⟩

/-- C4 (counterexample): a report different from the sentinel but
containing the substring `"consistent and grounded"` is still classified
as the "no issues" case, refuting the claim that any other text is treated
as "issues detected". -/
theorem C4_counterexample :
    validationNoIssues c4Other = true ∧ (c4Other == sentinelText) = false := by decide

/-- C4 (amended): the exact sentinel is classified "no issues", and in
general the view classifies a report as "no issues" precisely when the
substring `"consistent and grounded"` occurs in it (any report without
that substring is "issues detected"). -/
theorem C4_sentinel_classification :
    validationNoIssues sentinelText = true ∧
    ∀ r : String, validationNoIssues r = true ↔
      ∃ a b : String, r = a ++ sentinelSubstr ++ b :=
  ⟨by decide, fun r => jsIncludes_iff r sentinelSubstr⟩

/-- C4 (witness): the classification applied to a concrete decomposed
report. -/
theorem C4_witness :
    validationNoIssues (c4wPre ++ sentinelSubstr ++ c4wPost) = true :=
  (C4_sentinel_classification.2 (c4wPre ++ sentinelSubstr ++ c4wPost)).mpr
    ⟨c4wPre, c4wPost, rfl⟩

/-- C5: if the call fails with rate-limit-classified errors exactly `N`
times (`N < 10`) and then succeeds with `v`, the wrapper returns `v` after
exactly `N + 1` attempts, and the delay awaited before the k-th retried
attempt is `10000 * 1.5 ^ (k - 1)` (the delays list is exactly
`[10000 * 1.5 ^ 0, …, 10000 * 1.5 ^ (N-1)]`). -/
theorem C5_retry_success {α : Type} (call : Nat → Except ApiError α) (N : Nat) (v : α)
    (hN : N < 10)
    (hfail : ∀ j, j < N → ∃ e, call j = Except.error e ∧ isRateLimit e = true)
    (hok : call N = Except.ok v) :
    generateWithRetry call 10 10000 =
      (Except.ok v, N + 1, (List.range N).map fun k => (10000 : ℚ) * (3 / 2) ^ k) := by
  have h := retryLoop_ok call 10 v N 0 10 10000 rfl (by omega)
    (fun j hj => by simpa using hfail j hj) (by simpa using hok)
  calc generateWithRetry call 10 10000 = retryLoop call 10 10 0 10000 := rfl
    _ = _ := by rw [h, geomDelays_eq]

/-- C5 (witness): two rate-limit failures then success gives the success
value after three attempts with delays `[10000, 15000]` in the geometric
form. -/
theorem C5_witness :
    generateWithRetry twoFailCall 10 10000 =
      (Except.ok okResult, 2 + 1, (List.range 2).map fun k => (10000 : ℚ) * (3 / 2) ^ k) :=
  C5_retry_success twoFailCall 2 okResult (by omega)
    (fun j hj => ⟨rlError, by simp [twoFailCall, hj], by decide⟩) rfl

/-- C6: after `N` rate-limit failures, an error that is not
rate-limit-classified (status and code not 429, message containing neither
`"429"` nor `"RESOURCE_EXHAUSTED"`) is propagated immediately: the wrapper
stops at attempt `N + 1` and awaits no backoff delay after the failing
attempt. -/
theorem C6_non_rate_limit_propagates {α : Type} (call : Nat → Except ApiError α)
    (N : Nat) (e : ApiError) (hN : N < 10)
    (hfail : ∀ j, j < N → ∃ e', call j = Except.error e' ∧ isRateLimit e' = true)
    (herr : call N = Except.error e) (hnot : isRateLimit e = false) :
    generateWithRetry call 10 10000 =
      (Except.error (GenError.api e), N + 1,
        (List.range N).map fun k => (10000 : ℚ) * (3 / 2) ^ k) := by
  have h := retryLoop_errEnd call 10 e N 0 10 10000 rfl (by omega)
    (fun j hj => by simpa using hfail j hj) (by simpa using herr) (Or.inl hnot)
  calc generateWithRetry call 10 10000 = retryLoop call 10 10 0 10000 := rfl
    _ = _ := by rw [h, geomDelays_eq]

/-- C6 (witness): a first-attempt non-rate-limit error propagates with one
attempt and no delays. -/
theorem C6_witness :
    generateWithRetry failOnceCall 10 10000 =
      (Except.error (GenError.api serverError), 0 + 1,
        (List.range 0).map fun k => (10000 : ℚ) * (3 / 2) ^ k) :=
  C6_non_rate_limit_propagates failOnceCall 0 serverError (by omega)
    (fun j hj => absurd hj (by omega)) rfl (by decide)

/-- C7 (counterexample): on an absent validation-stage payload the bundle's
validation field is `"Validation check failed."`, which does not start with
`"Failed to generate "` and hence is not of the form
`"Failed to generate X"` for any `X` (by `isPrefixCh_iff`), refuting the
claim that every text stage's placeholder has that form. -/
theorem C7_counterexample :
    (generateAnalysis emptyAllOracle).result.validationReport = phValidation ∧
    isPrefixCh failedGenStem.data phValidation.data = false := by decide

/-- C7 (amended): every text stage with a falsy payload independently falls
back to its own fixed placeholder — `"Failed to generate
summary/critique/experiment plan/interpretation."` for stages 1, 2, 3, 6,
`"# Failed to generate code."` for stage 4 and `"Validation check failed."`
for stage 7 — and the pipeline still issues all seven requests. -/
theorem C7_stage_placeholders (texts : Nat → Option String) (i : Nat)
    (hi : i ≠ 4) (h : isEmptyText (texts i) = true) :
    stageField (generateAnalysis texts).result i = stagePlaceholder i ∧
    (generateAnalysis texts).requests.length = 7 := by
  refine ⟨?_, rfl⟩
  rcases i with _ | _ | _ | _ | _ | _ | _ | n
  · exact textOr_empty _ _ h
  · exact textOr_empty _ _ h
  · exact textOr_empty _ _ h
  · show cleanCode (textOr (texts 3) phCode) = phCode
    rw [textOr_empty _ _ h]
    decide
  · exact absurd rfl hi
  · exact textOr_empty _ _ h
  · exact textOr_empty _ _ h
  · rfl

/-- C7 (witness): the summary stage at an all-empty oracle yields its
placeholder and all seven requests are still issued. -/
theorem C7_witness :
    stageField (generateAnalysis emptyAllOracle).result 0 = stagePlaceholder 0 ∧
    (generateAnalysis emptyAllOracle).requests.length = 7 :=
  C7_stage_placeholders emptyAllOracle 0 (by omega) rfl

/-- C8: whenever the slides response text fails to parse as JSON, the
bundle's slides list is exactly the one-entry `"Error"` placeholder, the
parse failure is logged, and the pipeline still issues all seven requests
(it continues to stages 6 and 7 instead of aborting). -/
theorem C8_slides_parse_failure (texts : Nat → Option String)
    (h : parseSlideData (cleanJson (textOr (texts 4) jsonFallback)) = none) :
    (generateAnalysis texts).result.slides = [errorSlide] ∧
    (generateAnalysis texts).loggedErrors = [slidesParseLogMsg] ∧
    (generateAnalysis texts).requests.length = 7 := by
  refine ⟨?_, ?_, rfl⟩
  · rw [run_slides_eq, h]
  · rw [run_logged_eq, h]

/-- C8 (witness): the malformed-slides oracle takes the placeholder-and-log
path while the pipeline continues. -/
theorem C8_witness :
    (generateAnalysis malformedSlidesOracle).result.slides = [errorSlide] ∧
    (generateAnalysis malformedSlidesOracle).loggedErrors = [slidesParseLogMsg] ∧
    (generateAnalysis malformedSlidesOracle).requests.length = 7 :=
  C8_slides_parse_failure malformedSlidesOracle (by decide)

/-- C9: `cleanCode` on `"```python\nprint(1)\n```"` returns exactly
`"print(1)"`, with no residual fence markers or language tag; the stripping
rule it implements is the embedded definition `cleanCode` (leading
language-tagged fence if present, else leading generic fence, trailing
generic fence, trim). -/
theorem C9_clean_code_extraction : cleanCode pyFenceInput = "print(1)" := by decide

/-- C10: exactly the requests of stages 1, 2 and 3 carry the pipeline's
system instruction in their configuration; the requests of stages 4, 5, 6
and 7 carry none (stages 4, 6, 7 have no config at all, stage 5's config
has no system instruction). -/
theorem C10_system_instruction_stages (texts : Nat → Option String) :
    (generateAnalysis texts).requests.map
        (fun q => q.config.bind GenConfig.systemInstruction) =
      [some systemInstructionText, some systemInstructionText,
        some systemInstructionText, none, none, none, none] := rfl
